import Mathlib

set_option maxRecDepth 10000

/-!
Shallow embedding of the assertables crate's assertion-macro families, at the
instantiations exercised by the repository's own tests (integer collections,
`Result<i8, i8>`, `Poll<i8>`, commands and readers over UTF-8 text).

Modelling conventions:
* A Rust macro expansion becomes a Lean function; `panic!` becomes the
  `Except.error` branch of the wrapper's return value, so "panics with payload
  m" is modelled as returning `Except.error m`.
* `BTreeMap<K, usize>` (used by the bag macros) is modelled as an association
  list sorted by key, with the `entry(x).or_insert(0); *n += 1` loop translated
  to `bagInsert`.
* Operand-expression evaluation (for the exactly-once claims) is modelled by
  state-passing functions that append an evaluation tag to a trace each time
  the operand expression is evaluated.
* Rust `Debug` rendering of the concrete operand types is reproduced verbatim;
  `Debug` escaping inside strings is not modelled (all operands used in the
  theorems below are escape-free).
-/

namespace Assertables

/-! ## Rust `Debug` rendering at the instantiated types -/

/-- Debug rendering of an `i32`/`i8` value: plain decimal digits. -/
def rustDebugInt (n : Int) : String := toString n

/-- Debug rendering of an integer slice or array, e.g. `[1, 1]`. -/
def rustDebugList (l : List Int) : String :=
  "[" ++ String.intercalate ", " (l.map rustDebugInt) ++ "]"

/-- Debug rendering of a `&str` or `String`: quoted (escaping not modelled). -/
def rustDebugString (s : String) : String := "\"" ++ s ++ "\""

/-! ## Substring containment (Rust `str::contains` with a string pattern) -/

/-- Does the pattern (first argument) begin the text (second argument)? -/
def leadMatch : List Char → List Char → Bool
  | [], _ => true
  | _ :: _, [] => false
  | p :: ps, c :: cs => p == c && leadMatch ps cs

/-- Does the pattern occur as a contiguous run somewhere in the text? -/
def subSearch (pat : List Char) : List Char → Bool
  | [] => leadMatch pat []
  | c :: rest => leadMatch pat (c :: rest) || subSearch pat rest

/-- Rust `s.contains(pat)` for string patterns: substring containment. -/
def strContains (s pat : String) : Bool := subSearch pat.data s.data

/-! ## Bags (`BTreeMap<_, usize>` tallies) -/

/-- One step of the tally loop `let n = bag.entry(x).or_insert(0); *n += 1;`
on the sorted-association-list model of `BTreeMap<i32, usize>`. -/
def bagInsert (x : Int) : List (Int × Nat) → List (Int × Nat)
  | [] => [(x, 1)]
  | (k, v) :: t =>
    if x < k then (x, 1) :: (k, v) :: t
    else if x = k then (k, v + 1) :: t
    else (k, v) :: bagInsert x t

/-- The whole tally loop of `assert_bag_superbag_as_result!`:
`for x in val.into_iter() { let n = bag.entry(x).or_insert(0); *n += 1; }`. -/
def bagOfList (l : List Int) : List (Int × Nat) :=
  l.foldl (fun m x => bagInsert x m) []

/-- Modelled from the spec: the helper macro `assert_bag_impl_prep!` invoked by
`assert_bag_eq2_as_result!` is not under src/ (only its call sites are). The
module documentation says the implementation "uses BTreeMap to count items and
sort them", and the module's own test expects `BTreeMap::from([(&1, 2)])` for
the collection `[1, 1]`; accordingly it is modelled as the per-element tally,
identical to the in-src tally loop of `assert_bag_superbag_as_result!`. -/
def assert_bag_impl_prep (l : List Int) : List (Int × Nat) := bagOfList l

/-- `BTreeMap::get` on the model: first association with the queried key. -/
def bagLookup : List (Int × Nat) → Int → Option Nat
  | [], _ => none
  | (k, v) :: t, x => if x = k then some v else bagLookup t x

/-- `BTreeMap::contains_key` on the model. -/
def bagContainsKey (m : List (Int × Nat)) (x : Int) : Bool :=
  (bagLookup m x).isSome

/-- `BTreeMap::get_key_value` on the model: for integer keys the stored key
equals the queried key, so the stored pair is `(x, count)`. -/
def bagGetKeyValue (m : List (Int × Nat)) (x : Int) : Option (Int × Nat) :=
  (bagLookup m x).map (fun v => (x, v))

/-- The count a key is mapped to, zero when absent. -/
def bagCount (m : List (Int × Nat)) (x : Int) : Nat :=
  (bagLookup m x).getD 0

/-- Rust `>=` on `Option<(&i32, &usize)>` (derived ordering: `None` is least,
pairs compare lexicographically). -/
def optKVGe : Option (Int × Nat) → Option (Int × Nat) → Bool
  | none, none => true
  | some _, none => true
  | none, some _ => false
  | some p, some q => decide (q.1 < p.1) || (decide (p.1 = q.1) && decide (q.2 ≤ p.2))

/-- Debug rendering of `BTreeMap<i32, usize>`, e.g. `{1: 2}` (ascending keys,
which is how the sorted model stores them). -/
def rustDebugBag (m : List (Int × Nat)) : String :=
  "\x7b" ++ String.intercalate ", " (m.map (fun p => toString p.1 ++ ": " ++ toString p.2)) ++ "\x7d"

/-! ## `assert_bag_eq2` family -/

/-- The failure diagnostic of `assert_bag_eq2_as_result!`; the `{}`/`{:?}`
slots of its `format!` template are the string parameters. -/
def bagEq2Msg (aLabel aDebug bLabel bDebug aBagDebug bBagDebug : String) : String :=
  "assertion failed: `assert_bag_eq2!(a_collection, b_collection)`\n" ++
  "https://docs.rs/assertables/9.0.0/assertables/macro.assert_bag_eq2.html\n" ++
  " a label: `" ++ aLabel ++ "`,\n" ++
  " a debug: `" ++ aDebug ++ "`,\n" ++
  " b label: `" ++ bLabel ++ "`,\n" ++
  " b debug: `" ++ bDebug ++ "`,\n" ++
  "   a bag: `" ++ aBagDebug ++ "`,\n" ++
  "   b bag: `" ++ bBagDebug ++ "`"

/-- `assert_bag_eq2_as_result!($a_collection, $b_collection)`. The labels are
the `stringify!`-captured source texts of the two operand expressions. -/
def assert_bag_eq2_as_result (aLabel bLabel : String) (aCollection bCollection : List Int) :
    Except String (List (Int × Nat) × List (Int × Nat)) :=
  let aBag := assert_bag_impl_prep aCollection
  let bBag := assert_bag_impl_prep bCollection
  if aBag = bBag then Except.ok (aBag, bBag)
  else Except.error (bagEq2Msg aLabel (rustDebugList aCollection) bLabel
    (rustDebugList bCollection) (rustDebugBag aBag) (rustDebugBag bBag))

/-- `assert_bag_eq2!($a, $b)`: unwrap the `-as-result` outcome, turning `Err`
into a panic carrying the diagnostic (modelled as `Except.error`). -/
def assert_bag_eq2 (aLabel bLabel : String) (aCollection bCollection : List Int) :
    Except String (List (Int × Nat) × List (Int × Nat)) :=
  match assert_bag_eq2_as_result aLabel bLabel aCollection bCollection with
  | Except.ok x => Except.ok x
  | Except.error err => Except.error err

/-- `assert_bag_eq2!($a, $b, custom message)`: the generated diagnostic is
bound to `_err` and discarded; the panic payload is the custom message. -/
def assert_bag_eq2_with_message (aLabel bLabel : String) (aCollection bCollection : List Int)
    (message : String) : Except String (List (Int × Nat) × List (Int × Nat)) :=
  match assert_bag_eq2_as_result aLabel bLabel aCollection bCollection with
  | Except.ok x => Except.ok x
  | Except.error _err => Except.error message

/-! ## `assert_bag_superbag` family -/

/-- The `if` condition of `assert_bag_superbag_as_result!`:
`b_val.into_iter().all(|key| a_bag.contains_key(&key) && b_bag.contains_key(&key)
&& a_bag.get_key_value(&key) >= b_bag.get_key_value(&key))`. -/
def superbagHolds (a b : List Int) : Bool :=
  let aBag := bagOfList a
  let bBag := bagOfList b
  b.all (fun key => bagContainsKey aBag key && bagContainsKey bBag key &&
    optKVGe (bagGetKeyValue aBag key) (bagGetKeyValue bBag key))

/-- The failure diagnostic of `assert_bag_superbag_as_result!` (no docs URL
line in this template). -/
def superbagMsg (aLabel aDebug bLabel bDebug aBagDebug bBagDebug : String) : String :=
  "assertion failed: `assert_bag_superbag!(a_bag, b_bag)`\n" ++
  " a label: `" ++ aLabel ++ "`,\n" ++
  " a debug: `" ++ aDebug ++ "`,\n" ++
  " b label: `" ++ bLabel ++ "`,\n" ++
  " b debug: `" ++ bDebug ++ "`,\n" ++
  "       a: `" ++ aBagDebug ++ "`,\n" ++
  "       b: `" ++ bBagDebug ++ "`"

/-- `assert_bag_superbag_as_result!($a, $b)`. -/
def assert_bag_superbag_as_result (aLabel bLabel : String) (a b : List Int) :
    Except String Unit :=
  if superbagHolds a b then Except.ok ()
  else Except.error (superbagMsg aLabel (rustDebugList a) bLabel (rustDebugList b)
    (rustDebugBag (bagOfList a)) (rustDebugBag (bagOfList b)))

/-- `assert_bag_superbag!($a, $b)` (panicking form). -/
def assert_bag_superbag (aLabel bLabel : String) (a b : List Int) : Except String Unit :=
  match assert_bag_superbag_as_result aLabel bLabel a b with
  | Except.ok () => Except.ok ()
  | Except.error err => Except.error err

/-- `assert_bag_superbag!($a, $b, custom message)`. -/
def assert_bag_superbag_with_message (aLabel bLabel : String) (a b : List Int)
    (message : String) : Except String Unit :=
  match assert_bag_superbag_as_result aLabel bLabel a b with
  | Except.ok () => Except.ok ()
  | Except.error _err => Except.error message

/-! ## `assert_err_eq_x` family (`Result<i8, i8>` against an `i8`) -/

/-- Debug rendering of `Result<i8, i8>`. -/
def rustDebugResult : Except Int Int → String
  | Except.ok n => "Ok(" ++ toString n ++ ")"
  | Except.error n => "Err(" ++ toString n ++ ")"

/-- Shared leading part of both `assert_err_eq_x_as_result!` failure
templates, through the `a debug` line. -/
def errEqXHead (aLabel aDebug : String) : String :=
  "assertion failed: `assert_err_eq_x!(a, b)`\n" ++
  "https://docs.rs/assertables/9.2.0/assertables/macro.assert_err_eq_x.html\n" ++
  " a label: `" ++ aLabel ++ "`,\n" ++
  " a debug: `" ++ aDebug ++ "`,\n"

/-- Diagnostic when `a` is `Err(a1)` but `a1 != b`: includes the `a inner`
line. -/
def errEqXMsgNe (aLabel aDebug aInner bLabel bDebug : String) : String :=
  errEqXHead aLabel aDebug ++
    (" a inner: `" ++ (aInner ++ ("`,\n b label: `" ++ (bLabel ++ ("`,\n b debug: `" ++ (bDebug ++ "`"))))))

/-- Diagnostic when `a` is not the `Err` variant: no `a inner` line. -/
def errEqXMsgNotErr (aLabel aDebug bLabel bDebug : String) : String :=
  errEqXHead aLabel aDebug ++
    (" b label: `" ++ (bLabel ++ ("`,\n b debug: `" ++ (bDebug ++ "`"))))

/-- `assert_err_eq_x_as_result!($a, $b)`. -/
def assert_err_eq_x_as_result (aLabel bLabel : String) (a : Except Int Int) (b : Int) :
    Except String Int :=
  match a with
  | Except.error a1 =>
    if a1 = b then Except.ok a1
    else Except.error (errEqXMsgNe aLabel (rustDebugResult a) (rustDebugInt a1)
      bLabel (rustDebugInt b))
  | Except.ok _ =>
    Except.error (errEqXMsgNotErr aLabel (rustDebugResult a) bLabel (rustDebugInt b))

/-- `assert_err_eq_x!($a, $b)` (panicking form). -/
def assert_err_eq_x (aLabel bLabel : String) (a : Except Int Int) (b : Int) :
    Except String Int :=
  match assert_err_eq_x_as_result aLabel bLabel a b with
  | Except.ok x => Except.ok x
  | Except.error err => Except.error err

/-- `assert_err_eq_x!($a, $b, custom message)`. -/
def assert_err_eq_x_with_message (aLabel bLabel : String) (a : Except Int Int) (b : Int)
    (message : String) : Except String Int :=
  match assert_err_eq_x_as_result aLabel bLabel a b with
  | Except.ok x => Except.ok x
  | Except.error _err => Except.error message

/-! ## `assert_ready_eq2` family (`Poll<i8>`) -/

/-- Rust `std::task::Poll<i8>`. -/
inductive RustPoll : Type
  | Ready (v : Int)
  | Pending
deriving DecidableEq, Repr

/-- Debug rendering of `Poll<i8>`. -/
def rustDebugPoll : RustPoll → String
  | RustPoll.Ready v => "Ready(" ++ toString v ++ ")"
  | RustPoll.Pending => "Pending"

/-- Shared leading part of both `assert_ready_eq2_as_result!` failure
templates, through the `a debug` line. -/
def readyEq2Head (aLabel aDebug : String) : String :=
  "assertion failed: `assert_ready_eq2!(a, b)`\n" ++
  "https://docs.rs/assertables/9.0.0/assertables/macro.assert_ready_eq2.html\n" ++
  " a label: `" ++ aLabel ++ "`,\n" ++
  " a debug: `" ++ aDebug ++ "`,\n"

/-- Diagnostic when both are `Ready` but the payloads differ: includes the
two inner lines. -/
def readyEq2MsgNe (aLabel aDebug aInner bLabel bDebug bInner : String) : String :=
  readyEq2Head aLabel aDebug ++
    (" a inner: `" ++ (aInner ++ ("`,\n b label: `" ++ (bLabel ++ ("`,\n b debug: `" ++
      (bDebug ++ ("`,\n b inner: `" ++ (bInner ++ "`"))))))))

/-- Diagnostic when at least one operand is not `Ready`: no inner lines. -/
def readyEq2MsgNotReady (aLabel aDebug bLabel bDebug : String) : String :=
  readyEq2Head aLabel aDebug ++
    (" b label: `" ++ (bLabel ++ ("`,\n b debug: `" ++ (bDebug ++ "`"))))

/-- `assert_ready_eq2_as_result!($a, $b)`. -/
def assert_ready_eq2_as_result (aLabel bLabel : String) (a b : RustPoll) :
    Except String (Int × Int) :=
  match a, b with
  | RustPoll.Ready a1, RustPoll.Ready b1 =>
    if a1 = b1 then Except.ok (a1, b1)
    else Except.error (readyEq2MsgNe aLabel (rustDebugPoll a) (rustDebugInt a1)
      bLabel (rustDebugPoll b) (rustDebugInt b1))
  | _, _ =>
    Except.error (readyEq2MsgNotReady aLabel (rustDebugPoll a) bLabel (rustDebugPoll b))

/-! ## `assert_command_stderr_contains` family -/

/-- The captured output of a spawned command, with `stderr` already UTF-8
decoded (the macro decodes it with `String::from_utf8`). -/
structure CmdOutput : Type where
  stderr : String

/-- A `std::process::Command` as the macro observes it: its Debug rendering
and the outcome of `.output()` (the error side holds the Debug text of the
`io::Error`). -/
structure RustCommand : Type where
  dbg : String
  output : Except String CmdOutput

/-- Shared leading part of both `assert_command_stderr_contains_as_result!`
failure templates, through the `containee debug` line. -/
def cmdMsgHead (cmdLabel cmdDebug ctLabel ctDebug : String) : String :=
  "assertion failed: `assert_command_stderr_contains!(command, containee)`\n" ++
  "https://docs.rs/assertables/8.13.0/assertables/macro.assert_command_stderr_contains.html\n" ++
  "   command label: `" ++ cmdLabel ++ "`,\n" ++
  "   command debug: `" ++ cmdDebug ++ "`,\n" ++
  " containee label: `" ++ ctLabel ++ "`,\n" ++
  " containee debug: `" ++ ctDebug ++ "`,\n"

/-- Diagnostic when `.output()` itself failed: shows the `output` Result. -/
def cmdEvalFailMsg (cmdLabel cmdDebug ctLabel ctDebug outDebug : String) : String :=
  cmdMsgHead cmdLabel cmdDebug ctLabel ctDebug ++
    ("          output: `" ++ (outDebug ++ "`"))

/-- Diagnostic when the command ran but its stderr lacks the containee. -/
def cmdMismatchMsg (cmdLabel cmdDebug ctLabel ctDebug stderrDebug : String) : String :=
  cmdMsgHead cmdLabel cmdDebug ctLabel ctDebug ++
    ("          stderr: `" ++ (stderrDebug ++ "`"))

/-- `assert_command_stderr_contains_as_result!($command, $containee)`. -/
def assert_command_stderr_contains_as_result (cmdLabel : String) (command : RustCommand)
    (ctLabel : String) (containee : String) : Except String Unit :=
  match command.output with
  | Except.error e =>
    Except.error (cmdEvalFailMsg cmdLabel command.dbg ctLabel (rustDebugString containee)
      ("Err(" ++ e ++ ")"))
  | Except.ok out =>
    if strContains out.stderr containee then Except.ok ()
    else Except.error (cmdMismatchMsg cmdLabel command.dbg ctLabel
      (rustDebugString containee) (rustDebugString out.stderr))

/-! ## `assert_io_read_to_string_lt2` family -/

/-- A reader as the macro observes it: its Debug rendering and the outcome of
`read_to_string` (error side holds the Debug text of the `io::Error`; ok side
holds the content read into the target string). -/
structure RustReader : Type where
  dbg : String
  res : Except String String

/-- `$reader.read_to_string(&mut s)`: the returned `io::Result<usize>` (byte
count on success) together with the resulting content of `s`. -/
def readerReadToString (r : RustReader) : Except String Nat × String :=
  match r.res with
  | Except.ok c => (Except.ok c.utf8ByteSize, c)
  | Except.error e => (Except.error e, "")

/-- Debug rendering of the `io::Result<usize>` values shown in the failure
branch. -/
def rustDebugIoRes : Except String Nat → String
  | Except.ok n => "Ok(" ++ toString n ++ ")"
  | Except.error e => "Err(" ++ e ++ ")"

/-- The two literal lines shared by both `assert_io_read_to_string_lt2`
failure templates. -/
def ioLt2Header : String :=
  "assertion failed: `assert_io_read_to_string_lt2!(a_reader, b_reader)`\n" ++
  "https://docs.rs/assertables/9.0.0/assertables/macro.assert_io_read_to_string_lt2.html\n"

/-- Diagnostic when both reads succeeded but `a_string < b_string` fails
(single-space field indent, strings shown). -/
def ioLt2MsgGe (aLabel aDebug bLabel bDebug aStrDebug bStrDebug : String) : String :=
  (ioLt2Header ++ " a label: `") ++
    (aLabel ++ ("`,\n a debug: `" ++ (aDebug ++ ("`,\n b label: `" ++ (bLabel ++
      ("`,\n b debug: `" ++ (bDebug ++ ("`,\n       a: `" ++ (aStrDebug ++
        ("`,\n       b: `" ++ (bStrDebug ++ "`")))))))))))

/-- Diagnostic when at least one read failed (double-space field indent, the
two `io::Result` values shown). -/
def ioLt2MsgBad (aLabel aDebug bLabel bDebug aResDebug bResDebug : String) : String :=
  (ioLt2Header ++ "  a label: `") ++
    (aLabel ++ ("`,\n  a debug: `" ++ (aDebug ++ ("`,\n  b label: `" ++ (bLabel ++
      ("`,\n  b debug: `" ++ (bDebug ++ ("`,\n        a: `" ++ (aResDebug ++
        ("`,\n        b: `" ++ (bResDebug ++ "`")))))))))))

/-- `assert_io_read_to_string_lt2_as_result!($a_reader, $b_reader)`. -/
def assert_io_read_to_string_lt2_as_result (aLabel bLabel : String) (ra rb : RustReader) :
    Except String (String × String) :=
  let aRes := readerReadToString ra
  let bRes := readerReadToString rb
  match aRes.1, bRes.1 with
  | Except.ok _aSize, Except.ok _bSize =>
    if aRes.2 < bRes.2 then Except.ok (aRes.2, bRes.2)
    else Except.error (ioLt2MsgGe aLabel ra.dbg bLabel rb.dbg
      (rustDebugString aRes.2) (rustDebugString bRes.2))
  | a, b =>
    Except.error (ioLt2MsgBad aLabel ra.dbg bLabel rb.dbg
      (rustDebugIoRes a) (rustDebugIoRes b))

/-! ## Legacy `assure_bag_eq` family -/

/-- `assure_bag_eq!($left, $right)`: tallies both collections (`HashMap`
counts; `HashMap` equality is per-key count equality, modelled through the
canonical tally) and returns `Ok(true)`/`Ok(false)` — the `Err` side of the
`Result<bool, String>` type is never produced. -/
def assure_bag_eq (left right : List Int) : Except String Bool :=
  if bagOfList left = bagOfList right then Except.ok true else Except.ok false

/-- `assure_bag_eq!($left, $right, custom message)`: the second arm's body is
identical to the first; the message tokens are ignored. -/
def assure_bag_eq_with_message (left right : List Int) (_message : String) :
    Except String Bool :=
  if bagOfList left = bagOfList right then Except.ok true else Except.ok false

/-! ## Operand-evaluation traces

Each operand expression of a macro invocation is modelled as a state-passing
function that records an evaluation tag every time the macro expansion
evaluates it. `mkOperand t v` is an operand expression whose evaluation
appends `t` to the trace and yields `v` (the same value at every evaluation,
matching a pure Rust expression; an effectful expression is evaluated the same
number of times). -/

/-- Which operand slot was evaluated. -/
inductive EvTag : Type
  | opA
  | opB
deriving DecidableEq, Repr

/-- An operand expression with value `v` in slot `t`. -/
def mkOperand (t : EvTag) (v : α) : List EvTag → α × List EvTag :=
  fun tr => (v, tr ++ [t])

/-- `assert_bag_eq2_as_result!` with explicit operand evaluation: the
expansion evaluates `$a_collection` then `$b_collection` once each in the
`match (&$a_collection, &$b_collection)` header, and every later use (bag
construction and the failure `format!`) refers to the bound names. -/
def assert_bag_eq2_as_result_ev (aLabel bLabel : String)
    (ea eb : List EvTag → List Int × List EvTag) :
    List EvTag → Except String (List (Int × Nat) × List (Int × Nat)) × List EvTag :=
  fun tr =>
    let (a, tr1) := ea tr
    let (b, tr2) := eb tr1
    (assert_bag_eq2_as_result aLabel bLabel a b, tr2)

/-- `assert_bag_superbag_as_result!` with explicit operand evaluation: the
`match (&$a, &$b)` header evaluates each operand once, but the failure
`format!` names `$a` and `$b` again (not the bound `a_val`/`b_val`), so the
failure path evaluates each operand a second time. -/
def assert_bag_superbag_as_result_ev (aLabel bLabel : String)
    (ea eb : List EvTag → List Int × List EvTag) :
    List EvTag → Except String Unit × List EvTag :=
  fun tr =>
    let (a, tr1) := ea tr
    let (b, tr2) := eb tr1
    if superbagHolds a b then (Except.ok (), tr2)
    else
      let (a2, tr3) := ea tr2
      let (b2, tr4) := eb tr3
      (Except.error (superbagMsg aLabel (rustDebugList a2) bLabel (rustDebugList b2)
        (rustDebugBag (bagOfList a)) (rustDebugBag (bagOfList b))), tr4)

/-- `assert_err_eq_x_as_result!` with explicit operand evaluation: `match ($a)`
evaluates `$a`; the comparison `a1 == $b` evaluates `$b`; both failure
`format!` calls name `$a` (and on the mismatch path `$b`) again. -/
def assert_err_eq_x_as_result_ev (aLabel bLabel : String)
    (ea : List EvTag → Except Int Int × List EvTag)
    (eb : List EvTag → Int × List EvTag) :
    List EvTag → Except String Int × List EvTag :=
  fun tr =>
    let (a, tr1) := ea tr
    match a with
    | Except.error a1 =>
      let (b, tr2) := eb tr1
      if a1 = b then (Except.ok a1, tr2)
      else
        let (a2, tr3) := ea tr2
        let (b2, tr4) := eb tr3
        (Except.error (errEqXMsgNe aLabel (rustDebugResult a2) (rustDebugInt a1)
          bLabel (rustDebugInt b2)), tr4)
    | Except.ok _ =>
      let (a2, tr2) := ea tr1
      let (b2, tr3) := eb tr2
      (Except.error (errEqXMsgNotErr aLabel (rustDebugResult a2) bLabel
        (rustDebugInt b2)), tr3)

/-- `assert_bag_eq2!` (panicking form) with explicit operand evaluation: it
invokes the `-as-result` expansion once and matches on the outcome, adding no
operand evaluations of its own. -/
def assert_bag_eq2_ev (aLabel bLabel : String)
    (ea eb : List EvTag → List Int × List EvTag) :
    List EvTag → Except String (List (Int × Nat) × List (Int × Nat)) × List EvTag :=
  fun tr =>
    match assert_bag_eq2_as_result_ev aLabel bLabel ea eb tr with
    | (Except.ok x, tr2) => (Except.ok x, tr2)
    | (Except.error err, tr2) => (Except.error err, tr2)

/-- `assert_err_eq_x!` (panicking form) with explicit operand evaluation. -/
def assert_err_eq_x_ev (aLabel bLabel : String)
    (ea : List EvTag → Except Int Int × List EvTag)
    (eb : List EvTag → Int × List EvTag) :
    List EvTag → Except String Int × List EvTag :=
  fun tr =>
    match assert_err_eq_x_as_result_ev aLabel bLabel ea eb tr with
    | (Except.ok x, tr2) => (Except.ok x, tr2)
    | (Except.error err, tr2) => (Except.error err, tr2)

/-- `debug_assert_bag_eq2!`: `if cfg!(debug_assertions) { assert_bag_eq2!(..); }`.
The `cfg!` gate is the boolean parameter; with the gate off the expansion is
an empty statement (no operand evaluation, no panic), with it on the panicking
form runs as a statement (its payload discarded). -/
def debug_assert_bag_eq2_ev (debugAssertions : Bool) (aLabel bLabel : String)
    (ea eb : List EvTag → List Int × List EvTag) :
    List EvTag → Except String Unit × List EvTag :=
  fun tr =>
    if debugAssertions then
      match assert_bag_eq2_ev aLabel bLabel ea eb tr with
      | (Except.ok _, tr2) => (Except.ok (), tr2)
      | (Except.error err, tr2) => (Except.error err, tr2)
    else (Except.ok (), tr)

/-- `debug_assert_err_eq_x!`: same gate around `assert_err_eq_x!`. -/
def debug_assert_err_eq_x_ev (debugAssertions : Bool) (aLabel bLabel : String)
    (ea : List EvTag → Except Int Int × List EvTag)
    (eb : List EvTag → Int × List EvTag) :
    List EvTag → Except String Unit × List EvTag :=
  fun tr =>
    if debugAssertions then
      match assert_err_eq_x_ev aLabel bLabel ea eb tr with
      | (Except.ok _, tr2) => (Except.ok (), tr2)
      | (Except.error err, tr2) => (Except.error err, tr2)
    else (Except.ok (), tr)

end Assertables

namespace Assertables

/-! ## Bag lemmas: the tally loop builds the sorted per-element count map -/

/-- Invariant of the `BTreeMap` model: keys strictly increase. -/
def SortedBag (m : List (Int × Nat)) : Prop :=
  List.Pairwise (fun p q => p.1 < q.1) m

theorem mem_bagInsert_fst {x : Int} {m : List (Int × Nat)} {p : Int × Nat}
    (h : p ∈ bagInsert x m) : p.1 = x ∨ p.1 ∈ m.map Prod.fst := by
  induction m with
  | nil =>
    simp only [bagInsert, List.mem_singleton] at h
    simp [h]
  | cons hd t ih =>
    obtain ⟨k, v⟩ := hd
    simp only [bagInsert] at h
    by_cases h1 : x < k
    · rw [if_pos h1] at h
      rcases List.mem_cons.mp h with h2 | h2
      · exact Or.inl (by simp [h2])
      · exact Or.inr (List.mem_map_of_mem Prod.fst h2)
    · rw [if_neg h1] at h
      by_cases h2 : x = k
      · rw [if_pos h2] at h
        rcases List.mem_cons.mp h with h3 | h3
        · exact Or.inl (by simp [h3, h2])
        · exact Or.inr (by
            rw [List.map_cons]
            exact List.mem_cons_of_mem _ (List.mem_map_of_mem Prod.fst h3))
      · rw [if_neg h2] at h
        rcases List.mem_cons.mp h with h3 | h3
        · exact Or.inr (by simp [h3])
        · rcases ih h3 with h4 | h4
          · exact Or.inl h4
          · exact Or.inr (by
              rw [List.map_cons]
              exact List.mem_cons_of_mem _ h4)

theorem sortedBag_bagInsert {x : Int} {m : List (Int × Nat)} (h : SortedBag m) :
    SortedBag (bagInsert x m) := by
  induction m with
  | nil =>
    simp [bagInsert, SortedBag]
  | cons hd t ih =>
    obtain ⟨k, v⟩ := hd
    rw [SortedBag, List.pairwise_cons] at h
    obtain ⟨hk, ht⟩ := h
    rw [SortedBag]
    simp only [bagInsert]
    by_cases h1 : x < k
    · rw [if_pos h1, List.pairwise_cons]
      refine ⟨?_, ?_⟩
      · intro q hq
        rcases List.mem_cons.mp hq with h2 | h2
        · simp [h2]; omega
        · have := hk q h2
          simp at this ⊢
          omega
      · rw [List.pairwise_cons]
        exact ⟨hk, ht⟩
    · rw [if_neg h1]
      by_cases h2 : x = k
      · rw [if_pos h2, List.pairwise_cons]
        exact ⟨fun q hq => hk q hq, ht⟩
      · rw [if_neg h2, List.pairwise_cons]
        refine ⟨?_, ih ht⟩
        intro q hq
        rcases mem_bagInsert_fst hq with h3 | h3
        · simp [h3]; omega
        · rcases List.mem_map.mp h3 with ⟨q2, hq2, hq2eq⟩
          have := hk q2 hq2
          simp at this ⊢
          omega

theorem sortedBag_bagOfList_aux (l : List Int) (m : List (Int × Nat)) (h : SortedBag m) :
    SortedBag (l.foldl (fun m x => bagInsert x m) m) := by
  induction l generalizing m with
  | nil => simpa using h
  | cons hd t ih => exact ih (bagInsert hd m) (sortedBag_bagInsert h)

theorem sortedBag_bagOfList (l : List Int) : SortedBag (bagOfList l) :=
  sortedBag_bagOfList_aux l [] List.Pairwise.nil

theorem bagLookup_eq_none {m : List (Int × Nat)} {y : Int}
    (h : ∀ p ∈ m, y ≠ p.1) : bagLookup m y = none := by
  induction m with
  | nil => rfl
  | cons hd t ih =>
    obtain ⟨k, v⟩ := hd
    have hk : y ≠ k := h (k, v) (List.mem_cons_self _ _)
    simp only [bagLookup, if_neg hk]
    exact ih (fun p hp => h p (List.mem_cons_of_mem _ hp))

theorem bagLookup_bagInsert {m : List (Int × Nat)} (h : SortedBag m) (x y : Int) :
    bagLookup (bagInsert x m) y =
      if y = x then some ((bagLookup m y).getD 0 + 1) else bagLookup m y := by
  induction m with
  | nil =>
    by_cases hyx : y = x <;> simp [bagInsert, bagLookup, hyx]
  | cons hd t ih =>
    obtain ⟨k, v⟩ := hd
    rw [SortedBag, List.pairwise_cons] at h
    obtain ⟨hk, ht⟩ := h
    simp only [bagInsert]
    by_cases h1 : x < k
    · rw [if_pos h1]
      by_cases hyx : y = x
      · have hynotin : bagLookup ((k, v) :: t) y = none := by
          apply bagLookup_eq_none
          intro p hp
          rcases List.mem_cons.mp hp with h2 | h2
          · simp [h2]; omega
          · have := hk p h2
            omega
        rw [if_pos hyx, hynotin]
        simp [bagLookup, hyx]
      · simp [bagLookup, hyx]
    · rw [if_neg h1]
      by_cases h2 : x = k
      · rw [if_pos h2]
        by_cases hyx : y = x
        · simp [bagLookup, hyx, h2]
        · have hyk : ¬ y = k := by omega
          simp [bagLookup, hyx, hyk]
      · rw [if_neg h2]
        by_cases hyk : y = k
        · have hyx : ¬ y = x := by omega
          simp only [bagLookup, if_pos hyk, if_neg hyx]
        · simp only [bagLookup, if_neg hyk]
          exact ih ht

theorem bagLookup_foldl (l : List Int) (m : List (Int × Nat)) (h : SortedBag m) (y : Int) :
    bagLookup (l.foldl (fun m x => bagInsert x m) m) y =
      if List.count y l = 0 then bagLookup m y
      else some ((bagLookup m y).getD 0 + List.count y l) := by
  induction l generalizing m with
  | nil => simp
  | cons hd t ih =>
    have step := ih (bagInsert hd m) (sortedBag_bagInsert h)
    have lk := bagLookup_bagInsert h hd y
    simp only [List.foldl_cons]
    rw [step, lk, List.count_cons]
    by_cases hyh : y = hd
    · subst hyh
      have hne : ¬ (List.count y t + 1 = 0) := by omega
      by_cases htc : List.count y t = 0 <;>
        · simp [htc, hne]
          try omega
    · have hbeq : (hd == y) = false := by
        simp only [beq_eq_false_iff_ne]
        omega
      by_cases htc : List.count y t = 0 <;> simp [htc, hbeq, hyh]

theorem bagLookup_bagOfList (l : List Int) (y : Int) :
    bagLookup (bagOfList l) y =
      if List.count y l = 0 then none else some (List.count y l) := by
  have := bagLookup_foldl l [] List.Pairwise.nil y
  simpa [bagOfList, bagLookup] using this

theorem bagCount_bagOfList (l : List Int) (y : Int) :
    bagCount (bagOfList l) y = List.count y l := by
  rw [bagCount, bagLookup_bagOfList]
  by_cases h : List.count y l = 0 <;> simp [h]

theorem bagLookup_mem_fst {m : List (Int × Nat)} {y : Int} {v : Nat}
    (h : bagLookup m y = some v) : (y, v) ∈ m := by
  induction m with
  | nil => simp [bagLookup] at h
  | cons hd t ih =>
    obtain ⟨k, w⟩ := hd
    by_cases hyk : y = k
    · simp only [bagLookup, if_pos hyk] at h
      injection h with hw
      subst hw
      subst hyk
      exact List.mem_cons_self _ _
    · simp only [bagLookup, if_neg hyk] at h
      exact List.mem_cons_of_mem _ (ih h)

theorem bagExt {m1 m2 : List (Int × Nat)} (h1 : SortedBag m1) (h2 : SortedBag m2)
    (h : ∀ y, bagLookup m1 y = bagLookup m2 y) : m1 = m2 := by
  induction m1 generalizing m2 with
  | nil =>
    cases m2 with
    | nil => rfl
    | cons hd t =>
      obtain ⟨k, v⟩ := hd
      have := h k
      simp [bagLookup] at this
  | cons hd1 t1 ih =>
    obtain ⟨k1, v1⟩ := hd1
    cases m2 with
    | nil =>
      have := h k1
      simp [bagLookup] at this
    | cons hd2 t2 =>
      obtain ⟨k2, v2⟩ := hd2
      rw [SortedBag, List.pairwise_cons] at h1 h2
      obtain ⟨hall1, ht1⟩ := h1
      obtain ⟨hall2, ht2⟩ := h2
      have hl1 : bagLookup ((k2, v2) :: t2) k1 = some v1 := by
        rw [← h k1]; simp [bagLookup]
      have hl2 : bagLookup ((k1, v1) :: t1) k2 = some v2 := by
        rw [h k2]; simp [bagLookup]
      have hk12 : k2 ≤ k1 := by
        by_cases hx : k1 = k2
        · omega
        · have hmem := bagLookup_mem_fst hl1
          rcases List.mem_cons.mp hmem with hc | hc
          · have : k1 = k2 := congrArg Prod.fst hc
            omega
          · have := hall2 _ hc
            simp at this
            omega
      have hk21 : k1 ≤ k2 := by
        by_cases hx : k2 = k1
        · omega
        · have hmem := bagLookup_mem_fst hl2
          rcases List.mem_cons.mp hmem with hc | hc
          · have : k2 = k1 := congrArg Prod.fst hc
            omega
          · have := hall1 _ hc
            simp at this
            omega
      have hkeq : k1 = k2 := by omega
      have hveq : v1 = v2 := by
        have hthis := hl1
        rw [← hkeq] at hthis
        simp [bagLookup] at hthis
        omega
      have htails : ∀ y, bagLookup t1 y = bagLookup t2 y := by
        intro y
        by_cases hyk : y = k1
        · have e1 : bagLookup t1 y = none := by
            apply bagLookup_eq_none
            intro p hp
            have := hall1 p hp
            simp at this
            omega
          have e2 : bagLookup t2 y = none := by
            apply bagLookup_eq_none
            intro p hp
            have := hall2 p hp
            simp at this
            omega
          rw [e1, e2]
        · have hthis := h y
          have hyk2 : ¬ y = k2 := by omega
          simpa [bagLookup, if_neg hyk, if_neg hyk2] using hthis
      rw [hkeq, hveq, ih ht1 ht2 htails]

theorem bagOfList_eq_of_count {a b : List Int}
    (h : ∀ x, List.count x a = List.count x b) : bagOfList a = bagOfList b := by
  apply bagExt (sortedBag_bagOfList a) (sortedBag_bagOfList b)
  intro y
  rw [bagLookup_bagOfList, bagLookup_bagOfList, h y]


/-! ## The superbag condition is per-element count dominance -/

theorem superbagHolds_iff (a b : List Int) :
    superbagHolds a b = true ↔ ∀ x : Int, List.count x b ≤ List.count x a := by
  rw [superbagHolds]
  simp only [List.all_eq_true]
  constructor
  · intro h x
    by_cases hx : List.count x b = 0
    · omega
    · have hxb : x ∈ b := List.count_pos_iff.mp (by omega)
      have hx2 := h x hxb
      simp only [Bool.and_eq_true] at hx2
      obtain ⟨⟨hca, hcb⟩, hge⟩ := hx2
      rw [bagContainsKey, bagLookup_bagOfList] at hca
      by_cases ha0 : List.count x a = 0
      · rw [if_pos ha0] at hca
        simp at hca
      · rw [bagGetKeyValue, bagGetKeyValue, bagLookup_bagOfList, bagLookup_bagOfList,
          if_neg ha0, if_neg hx] at hge
        simp [optKVGe] at hge
        omega
  · intro h x hxb
    have hb : List.count x b ≠ 0 := by
      have := List.count_pos_iff.mpr hxb
      omega
    have ha : List.count x a ≠ 0 := by
      have := h x
      omega
    simp only [Bool.and_eq_true]
    refine ⟨⟨?_, ?_⟩, ?_⟩
    · rw [bagContainsKey, bagLookup_bagOfList, if_neg ha]
      rfl
    · rw [bagContainsKey, bagLookup_bagOfList, if_neg hb]
      rfl
    · rw [bagGetKeyValue, bagGetKeyValue, bagLookup_bagOfList, bagLookup_bagOfList,
        if_neg ha, if_neg hb]
      simp [optKVGe]
      exact h x

/-! ## String lemmas for diagnostic-template distinguishability -/

theorem strAppendCancel {p a b : String} (h : p ++ a = p ++ b) : a = b := by
  apply String.ext
  have hd := congrArg String.data h
  rw [String.data_append, String.data_append] at hd
  exact List.append_cancel_left hd

theorem strAppendNeRight (p : String) {a b : String} (h : a ≠ b) : p ++ a ≠ p ++ b :=
  fun he => h (strAppendCancel he)

theorem strNeOfLitNe (l1 l2 x y : String) (i : Nat)
    (h1 : i < l1.data.length) (h2 : i < l2.data.length)
    (hne : l1.data[i]? ≠ l2.data[i]?) : l1 ++ x ≠ l2 ++ y := by
  intro he
  apply hne
  have hd := congrArg String.data he
  rw [String.data_append, String.data_append] at hd
  calc l1.data[i]? = (l1.data ++ x.data)[i]? := (List.getElem?_append_left h1).symm
    _ = (l2.data ++ y.data)[i]? := by rw [hd]
    _ = l2.data[i]? := List.getElem?_append_left h2


theorem bagOfList_eq_iff_counts (a b : List Int) :
    bagOfList a = bagOfList b ↔
      ∀ x : Int, bagCount (bagOfList a) x = bagCount (bagOfList b) x := by
  constructor
  · intro h x
    rw [h]
  · intro h
    apply bagOfList_eq_of_count
    intro x
    have := h x
    rwa [bagCount_bagOfList, bagCount_bagOfList] at this

end Assertables

namespace Assertables

/-! ## Claim theorems -/

/-- Claim C1: for every pair of operands, the panicking forms
(`assert_bag_eq2!`, `assert_err_eq_x!`) return normally with the same payload
as the `Ok` value exactly when the `-as-result` forms return `Ok`, and panic
exactly when the `-as-result` forms return `Err`, with the panic payload equal
to the `Err` string. -/
theorem escalation_equivalence :
    (∀ (la lb : String) (a b : List Int),
      (∀ p, assert_bag_eq2 la lb a b = Except.ok p ↔
        assert_bag_eq2_as_result la lb a b = Except.ok p) ∧
      (∀ m, assert_bag_eq2 la lb a b = Except.error m ↔
        assert_bag_eq2_as_result la lb a b = Except.error m)) ∧
    (∀ (la lb : String) (a : Except Int Int) (b : Int),
      (∀ p, assert_err_eq_x la lb a b = Except.ok p ↔
        assert_err_eq_x_as_result la lb a b = Except.ok p) ∧
      (∀ m, assert_err_eq_x la lb a b = Except.error m ↔
        assert_err_eq_x_as_result la lb a b = Except.error m)) := by
  constructor
  · intro la lb a b
    constructor <;> intro z <;>
      cases h : assert_bag_eq2_as_result la lb a b <;>
        simp [assert_bag_eq2, h]
  · intro la lb a b
    constructor <;> intro z <;>
      cases h : assert_err_eq_x_as_result la lb a b <;>
        simp [assert_err_eq_x, h]

/-- Witness for C1 at a concrete input. -/
theorem escalation_equivalence_witness :
    assert_bag_eq2 "&a" "&b" [1, 1] [1, 1] = Except.ok ([(1, 2)], [(1, 2)]) ↔
      assert_bag_eq2_as_result "&a" "&b" [1, 1] [1, 1] = Except.ok ([(1, 2)], [(1, 2)]) :=
  (escalation_equivalence.1 "&a" "&b" [1, 1] [1, 1]).1 ([(1, 2)], [(1, 2)])

/-- Claim C2 counterexample: a single invocation of the embedded
`assert_err_eq_x_as_result!` on the operands `a = Err(1)`, `b = 2` (a
comparison failure) records the operand-evaluation trace
`[opA, opB, opA, opB]` — each operand expression is evaluated twice, because
the failure `format!` names `$a` and `$b` again — not the exactly-once trace
`[opA, opB]` that the claim asserts. -/
theorem err_eq_x_double_evaluation :
    (assert_err_eq_x_as_result_ev "a" "b" (mkOperand EvTag.opA (Except.error 1))
      (mkOperand EvTag.opB 2) []).2 = [EvTag.opA, EvTag.opB, EvTag.opA, EvTag.opB] ∧
    [EvTag.opA, EvTag.opB, EvTag.opA, EvTag.opB] ≠ [EvTag.opA, EvTag.opB] :=
  ⟨rfl, by decide⟩

/-- Claim C2 amended: operand expressions are evaluated left-to-right, and
`assert_bag_eq2_as_result!` evaluates each exactly once on both the success
and the failure path; but `assert_bag_superbag_as_result!` and
`assert_err_eq_x_as_result!` evaluate each operand expression a second time
when rendering the failure diagnostic (their `format!` names `$a`/`$b` again),
and when the `assert_err_eq_x!` operand is not `Err` the expansion evaluates
`a` twice and `b` once. -/
theorem operand_evaluation_traces :
    (∀ (la lb : String) (a b : List Int) (tr : List EvTag),
      (assert_bag_eq2_as_result_ev la lb (mkOperand EvTag.opA a)
        (mkOperand EvTag.opB b) tr).2 = tr ++ [EvTag.opA, EvTag.opB]) ∧
    (∀ (la lb : String) (a b : List Int) (tr : List EvTag),
      (assert_bag_superbag_as_result_ev la lb (mkOperand EvTag.opA a)
        (mkOperand EvTag.opB b) tr).2 =
        tr ++ (if superbagHolds a b then [EvTag.opA, EvTag.opB]
          else [EvTag.opA, EvTag.opB, EvTag.opA, EvTag.opB])) ∧
    (∀ (la lb : String) (a : Except Int Int) (b : Int) (tr : List EvTag),
      (assert_err_eq_x_as_result_ev la lb (mkOperand EvTag.opA a)
        (mkOperand EvTag.opB b) tr).2 =
        tr ++ (match a with
          | Except.error a1 =>
            if a1 = b then [EvTag.opA, EvTag.opB]
            else [EvTag.opA, EvTag.opB, EvTag.opA, EvTag.opB]
          | Except.ok _ => [EvTag.opA, EvTag.opA, EvTag.opB])) := by
  refine ⟨?_, ?_, ?_⟩
  · intro la lb a b tr
    simp [assert_bag_eq2_as_result_ev, mkOperand]
  · intro la lb a b tr
    by_cases h : superbagHolds a b = true <;>
      simp [assert_bag_superbag_as_result_ev, mkOperand, h]
  · intro la lb a b tr
    cases a with
    | error a1 =>
      by_cases h : a1 = b <;>
        simp [assert_err_eq_x_as_result_ev, mkOperand, h]
    | ok v => simp [assert_err_eq_x_as_result_ev, mkOperand]

/-- Witness for the amended C2 at a concrete input. -/
theorem operand_evaluation_traces_witness :
    (assert_bag_superbag_as_result_ev "&a" "&b" (mkOperand EvTag.opA [1, 1])
      (mkOperand EvTag.opB [2, 2]) []).2 =
      [] ++ (if superbagHolds [1, 1] [2, 2] then [EvTag.opA, EvTag.opB]
        else [EvTag.opA, EvTag.opB, EvTag.opA, EvTag.opB]) :=
  operand_evaluation_traces.2.1 "&a" "&b" [1, 1] [2, 2] []

/-- Claim C3: with a caller-supplied custom message, the panicking forms
(`assert_bag_eq2!`, `assert_bag_superbag!`) panic, whenever the comparison
fails, with a payload that is exactly the custom message (the generated
diagnostic is bound to `_err` and discarded; nothing is appended). -/
theorem custom_message_override :
    (∀ (la lb : String) (a b : List Int) (msg : String),
      assert_bag_eq2_with_message la lb a b msg =
        if assert_bag_impl_prep a = assert_bag_impl_prep b
        then Except.ok (assert_bag_impl_prep a, assert_bag_impl_prep b)
        else Except.error msg) ∧
    (∀ (la lb : String) (a b : List Int) (msg : String),
      assert_bag_superbag_with_message la lb a b msg =
        if superbagHolds a b then Except.ok () else Except.error msg) := by
  constructor
  · intro la lb a b msg
    by_cases h : assert_bag_impl_prep a = assert_bag_impl_prep b <;>
      simp [assert_bag_eq2_with_message, assert_bag_eq2_as_result, h]
  · intro la lb a b msg
    by_cases h : superbagHolds a b = true <;>
      simp [assert_bag_superbag_with_message, assert_bag_superbag_as_result, h]

/-- Witness for C3 at a concrete failing input: the panic payload is exactly
the custom message. -/
theorem custom_message_override_witness :
    assert_bag_eq2_with_message "&a" "&b" [1, 1] [1, 1, 1] "custom" =
      if assert_bag_impl_prep [1, 1] = assert_bag_impl_prep [1, 1, 1]
      then Except.ok (assert_bag_impl_prep [1, 1], assert_bag_impl_prep [1, 1, 1])
      else Except.error "custom" :=
  custom_message_override.1 "&a" "&b" [1, 1] [1, 1, 1] "custom"

end Assertables

namespace Assertables

/-- Claim C4: when an operand's own evaluation fails (`Command::output`
returns `Err`, or `read_to_string` returns `Err`), the `-as-result` forms
return an `Err` value (no panic), and the diagnostic produced for an
evaluation failure is never equal to the diagnostic produced for a
comparison failure (for the command macro, with the same labels and
operands; for the reader macro, for any arguments at all), so "operand could
not be evaluated" is distinguishable from "operands disagreed". -/
theorem operand_evaluation_failure_nonpanic :
    (∀ (cl ctl ct cdbg e : String),
      assert_command_stderr_contains_as_result cl ⟨cdbg, Except.error e⟩ ctl ct =
        Except.error (cmdEvalFailMsg cl cdbg ctl (rustDebugString ct)
          ("Err(" ++ e ++ ")"))) ∧
    (∀ (cl cd ctl ctd o s : String),
      cmdEvalFailMsg cl cd ctl ctd o ≠ cmdMismatchMsg cl cd ctl ctd s) ∧
    (∀ (la lb adbg e : String) (rb : RustReader),
      assert_io_read_to_string_lt2_as_result la lb ⟨adbg, Except.error e⟩ rb =
        Except.error (ioLt2MsgBad la adbg lb rb.dbg ("Err(" ++ e ++ ")")
          (rustDebugIoRes (readerReadToString rb).1))) ∧
    (∀ (la lb bdbg e : String) (ra : RustReader),
      assert_io_read_to_string_lt2_as_result la lb ra ⟨bdbg, Except.error e⟩ =
        Except.error (ioLt2MsgBad la ra.dbg lb bdbg
          (rustDebugIoRes (readerReadToString ra).1) ("Err(" ++ e ++ ")"))) ∧
    (∀ (a1 a2 a3 a4 a5 a6 b1 b2 b3 b4 b5 b6 : String),
      ioLt2MsgBad a1 a2 a3 a4 a5 a6 ≠ ioLt2MsgGe b1 b2 b3 b4 b5 b6) := by
  refine ⟨?_, ?_, ?_, ?_, ?_⟩
  · intro cl ctl ct cdbg e
    rfl
  · intro cl cd ctl ctd o s
    simp only [cmdEvalFailMsg, cmdMismatchMsg]
    exact strAppendNeRight _ (strNeOfLitNe "          output: `" "          stderr: `"
      (o ++ "`") (s ++ "`") 10 (by decide) (by decide) (by decide))
  · intro la lb adbg e rb
    rcases rb with ⟨bdbg, bres⟩
    cases bres <;>
      simp [assert_io_read_to_string_lt2_as_result, readerReadToString, rustDebugIoRes]
  · intro la lb bdbg e ra
    rcases ra with ⟨adbg, ares⟩
    cases ares <;>
      simp [assert_io_read_to_string_lt2_as_result, readerReadToString, rustDebugIoRes]
  · intro a1 a2 a3 a4 a5 a6 b1 b2 b3 b4 b5 b6
    simp only [ioLt2MsgBad, ioLt2MsgGe]
    exact strNeOfLitNe (ioLt2Header ++ "  a label: `") (ioLt2Header ++ " a label: `")
      _ _ (ioLt2Header.length + 1) (by decide) (by decide) (by decide)

/-- Witness for C4 at a concrete input: a command whose spawn fails yields the
evaluation-failure `Err`. -/
theorem operand_evaluation_failure_nonpanic_witness :
    assert_command_stderr_contains_as_result "a"
        ⟨"Command \x22missing\x22", Except.error "Os \x7b code: 2 \x7d"⟩ "b" "el" =
      Except.error (cmdEvalFailMsg "a" "Command \x22missing\x22" "b"
        (rustDebugString "el") ("Err(" ++ "Os \x7b code: 2 \x7d" ++ ")")) :=
  operand_evaluation_failure_nonpanic.1 "a" "b" "el" "Command \x22missing\x22"
    "Os \x7b code: 2 \x7d"

end Assertables

namespace Assertables

/-- Claim C5: `assert_bag_superbag_as_result!(a, b)` returns `Ok(())` iff
every element's count in the bag built from `b` is at most that element's
count in the bag built from `a`; concretely `a = [1,1,1]`, `b = [1,1]` yields
`Ok(())`, and `a = [1,1]`, `b = [2,2]` yields an `Err` whose message contains
both tallies `{1: 2}` and `{2: 2}`. -/
theorem superbag_correctness :
    (∀ (la lb : String) (a b : List Int),
      assert_bag_superbag_as_result la lb a b = Except.ok () ↔
        ∀ x : Int, bagCount (bagOfList b) x ≤ bagCount (bagOfList a) x) ∧
    assert_bag_superbag_as_result "&a" "&b" [1, 1, 1] [1, 1] = Except.ok () ∧
    (∃ m, assert_bag_superbag_as_result "&a" "&b" [1, 1] [2, 2] = Except.error m ∧
      strContains m "\x7b1: 2\x7d" = true ∧ strContains m "\x7b2: 2\x7d" = true) := by
  refine ⟨?_, rfl, ⟨_, rfl, rfl, rfl⟩⟩
  intro la lb a b
  rw [assert_bag_superbag_as_result]
  by_cases hc : superbagHolds a b = true
  · rw [if_pos hc]
    constructor
    · intro _ x
      rw [bagCount_bagOfList, bagCount_bagOfList]
      exact (superbagHolds_iff a b).mp hc x
    · intro _
      rfl
  · rw [if_neg hc]
    constructor
    · intro h
      exact absurd h (by simp)
    · intro h
      exfalso
      apply hc
      apply (superbagHolds_iff a b).mpr
      intro x
      have hx := h x
      rwa [bagCount_bagOfList, bagCount_bagOfList] at hx

/-- Witness for C5 at a concrete input. -/
theorem superbag_correctness_witness :
    assert_bag_superbag_as_result "&c" "&d" [1, 1, 1] [1, 1] = Except.ok () :=
  (superbag_correctness.1 "&c" "&d" [1, 1, 1] [1, 1]).mpr (by
    intro x
    rw [bagCount_bagOfList, bagCount_bagOfList]
    by_cases hx : x = 1 <;> simp [List.count_cons, hx])

/-- Claim C6: `assert_bag_eq2_as_result!` succeeds exactly when the two
collections have equal per-element counts (not merely equal key sets): for
`a = [1,1]`, `b = [1,1]` it returns `Ok` with both tallies, and for
`a = [1,1]`, `b = [1,1,1]` it returns an `Err` whose diagnostic contains the
texts `a bag: `{1: 2}`` and `b bag: `{1: 3}``. -/
theorem bag_eq2_count_equality :
    (∀ (la lb : String) (a b : List Int),
      (∃ p, assert_bag_eq2_as_result la lb a b = Except.ok p) ↔
        ∀ x : Int, bagCount (bagOfList a) x = bagCount (bagOfList b) x) ∧
    assert_bag_eq2_as_result "&a" "&b" [1, 1] [1, 1] =
      Except.ok ([(1, 2)], [(1, 2)]) ∧
    (∃ m, assert_bag_eq2_as_result "&a" "&b" [1, 1] [1, 1, 1] = Except.error m ∧
      strContains m "a bag: `\x7b1: 2\x7d`" = true ∧
      strContains m "b bag: `\x7b1: 3\x7d`" = true) := by
  refine ⟨?_, rfl, ⟨_, rfl, rfl, rfl⟩⟩
  intro la lb a b
  rw [assert_bag_eq2_as_result]
  by_cases hc : assert_bag_impl_prep a = assert_bag_impl_prep b
  · rw [if_pos hc]
    constructor
    · intro _
      exact (bagOfList_eq_iff_counts a b).mp hc
    · intro _
      exact ⟨_, rfl⟩
  · rw [if_neg hc]
    constructor
    · intro ⟨p, hp⟩
      exact absurd hp (by simp)
    · intro h
      exact absurd ((bagOfList_eq_iff_counts a b).mpr h) hc

/-- Witness for C6 at a concrete input. -/
theorem bag_eq2_count_equality_witness :
    ∃ p, assert_bag_eq2_as_result "&c" "&d" [2, 1] [1, 2] = Except.ok p :=
  (bag_eq2_count_equality.1 "&c" "&d" [2, 1] [1, 2]).mpr (by
    intro x
    rw [bagCount_bagOfList, bagCount_bagOfList]
    by_cases hx : x = 1 <;> by_cases hx2 : x = 2 <;>
      simp [List.count_cons, hx, hx2])

end Assertables

namespace Assertables

/-- Claim C7: when a structural-unwrap assertion's operand is not the expected
variant (`Ok(_)` where `Err` is expected; `Pending` where `Ready` is
expected), the `-as-result` form returns an `Err` whose diagnostic omits the
inner-payload line, and that diagnostic is never equal to the values-disagree
diagnostic built from the same labels and debug renderings, so the two
failure modes are distinguishable from the message text. -/
theorem structural_unwrap_diagnostics :
    (∀ (la lb : String) (v b : Int),
      assert_err_eq_x_as_result la lb (Except.ok v) b =
        Except.error (errEqXMsgNotErr la (rustDebugResult (Except.ok v)) lb
          (rustDebugInt b))) ∧
    (∀ (la ad ai lb bd : String),
      errEqXMsgNotErr la ad lb bd ≠ errEqXMsgNe la ad ai lb bd) ∧
    strContains (errEqXMsgNotErr "a" "Ok(1)" "b" "1") " a inner" = false ∧
    strContains (errEqXMsgNe "a" "Err(1)" "1" "b" "2") " a inner" = true ∧
    (∀ (la lb : String) (b : RustPoll),
      assert_ready_eq2_as_result la lb RustPoll.Pending b =
        Except.error (readyEq2MsgNotReady la "Pending" lb (rustDebugPoll b))) ∧
    (∀ (la lb : String) (a1 : Int),
      assert_ready_eq2_as_result la lb (RustPoll.Ready a1) RustPoll.Pending =
        Except.error (readyEq2MsgNotReady la (rustDebugPoll (RustPoll.Ready a1))
          lb "Pending")) ∧
    (∀ (la ad ai lb bd bi : String),
      readyEq2MsgNotReady la ad lb bd ≠ readyEq2MsgNe la ad ai lb bd bi) ∧
    strContains (readyEq2MsgNotReady "a" "Pending" "b" "Ready(1)") " a inner" = false := by
  refine ⟨?_, ?_, by decide, by decide, ?_, ?_, ?_, by decide⟩
  · intro la lb v b
    rfl
  · intro la ad ai lb bd
    simp only [errEqXMsgNotErr, errEqXMsgNe]
    exact strAppendNeRight _ (strNeOfLitNe " b label: `" " a inner: `" _ _ 1
      (by decide) (by decide) (by decide))
  · intro la lb b
    cases b <;> rfl
  · intro la lb a1
    rfl
  · intro la ad ai lb bd bi
    simp only [readyEq2MsgNotReady, readyEq2MsgNe]
    exact strAppendNeRight _ (strNeOfLitNe " b label: `" " a inner: `" _ _ 1
      (by decide) (by decide) (by decide))

/-- Witness for C7 at a concrete input. -/
theorem structural_unwrap_diagnostics_witness :
    assert_err_eq_x_as_result "a" "b" (Except.ok 1) 1 =
      Except.error (errEqXMsgNotErr "a" (rustDebugResult (Except.ok 1)) "b"
        (rustDebugInt 1)) :=
  structural_unwrap_diagnostics.1 "a" "b" 1 1

/-- Claim C8: the `-as-result` forms are deterministic — two invocations with
identical operand values (regardless of anything that happened before in the
evaluation trace) produce byte-identical outcomes, including byte-identical
diagnostic strings on failure. -/
theorem as_result_determinism :
    ∀ (la lb : String) (a b : List Int) (tr1 tr2 : List EvTag),
      (assert_bag_eq2_as_result_ev la lb (mkOperand EvTag.opA a)
        (mkOperand EvTag.opB b) tr1).1 =
      (assert_bag_eq2_as_result_ev la lb (mkOperand EvTag.opA a)
        (mkOperand EvTag.opB b) tr2).1 := by
  intro la lb a b tr1 tr2
  rfl

/-- Witness for C8 at a concrete input. -/
theorem as_result_determinism_witness :
    (assert_bag_eq2_as_result_ev "&a" "&b" (mkOperand EvTag.opA [1, 1])
      (mkOperand EvTag.opB [1, 1, 1]) []).1 =
    (assert_bag_eq2_as_result_ev "&a" "&b" (mkOperand EvTag.opA [1, 1])
      (mkOperand EvTag.opB [1, 1, 1]) [EvTag.opA]).1 :=
  as_result_determinism "&a" "&b" [1, 1] [1, 1, 1] [] [EvTag.opA]

/-- Claim C9: with debug assertions off, `debug_assert_bag_eq2!` and
`debug_assert_err_eq_x!` evaluate no operand expression and never panic, for
every input (including inputs on which the panicking form panics); with debug
assertions on, they behave identically to the panicking forms (same trace,
same panic payload, payload value discarded as a statement). -/
theorem debug_gate_behavior :
    (∀ (la lb : String) (ea eb : List EvTag → List Int × List EvTag) (tr : List EvTag),
      debug_assert_bag_eq2_ev false la lb ea eb tr = (Except.ok (), tr)) ∧
    (∀ (la lb : String) (ea : List EvTag → Except Int Int × List EvTag)
        (eb : List EvTag → Int × List EvTag) (tr : List EvTag),
      debug_assert_err_eq_x_ev false la lb ea eb tr = (Except.ok (), tr)) ∧
    (∀ (la lb : String) (ea eb : List EvTag → List Int × List EvTag) (tr : List EvTag),
      debug_assert_bag_eq2_ev true la lb ea eb tr =
        ((assert_bag_eq2_ev la lb ea eb tr).1.map (fun _ => ()),
          (assert_bag_eq2_ev la lb ea eb tr).2)) ∧
    (∀ (la lb : String) (ea : List EvTag → Except Int Int × List EvTag)
        (eb : List EvTag → Int × List EvTag) (tr : List EvTag),
      debug_assert_err_eq_x_ev true la lb ea eb tr =
        ((assert_err_eq_x_ev la lb ea eb tr).1.map (fun _ => ()),
          (assert_err_eq_x_ev la lb ea eb tr).2)) := by
  refine ⟨fun _ _ _ _ _ => rfl, fun _ _ _ _ _ => rfl, ?_, ?_⟩
  · intro la lb ea eb tr
    rcases h : assert_bag_eq2_ev la lb ea eb tr with ⟨r, tr2⟩
    cases r <;> simp [debug_assert_bag_eq2_ev, h, Except.map]
  · intro la lb ea eb tr
    rcases h : assert_err_eq_x_ev la lb ea eb tr with ⟨r, tr2⟩
    cases r <;> simp [debug_assert_err_eq_x_ev, h, Except.map]

/-- Witness for C9 at a concrete input: with the gate off, a failing input
leaves the trace empty and returns normally. -/
theorem debug_gate_behavior_witness :
    debug_assert_bag_eq2_ev false "&a" "&b" (mkOperand EvTag.opA [1, 1])
      (mkOperand EvTag.opB [1, 1, 1]) [] = (Except.ok (), []) :=
  debug_gate_behavior.1 "&a" "&b" (mkOperand EvTag.opA [1, 1])
    (mkOperand EvTag.opB [1, 1, 1]) []

/-- Claim C10: the legacy `assure_bag_eq!` macro never returns `Err` and never
panics: it returns `Ok(true)` exactly when the two collections' per-element
counts are equal and `Ok(false)` otherwise, with no diagnostic string; the
custom-message arity behaves identically (the message is ignored). -/
theorem assure_bag_eq_protocol :
    ∀ (l r : List Int),
      (assure_bag_eq l r = Except.ok true ∨ assure_bag_eq l r = Except.ok false) ∧
      (assure_bag_eq l r = Except.ok true ↔
        ∀ x : Int, bagCount (bagOfList l) x = bagCount (bagOfList r) x) ∧
      (∀ msg : String, assure_bag_eq_with_message l r msg = assure_bag_eq l r) := by
  intro l r
  refine ⟨?_, ?_, fun msg => rfl⟩
  · by_cases hc : bagOfList l = bagOfList r
    · exact Or.inl (by simp [assure_bag_eq, hc])
    · exact Or.inr (by simp [assure_bag_eq, hc])
  · constructor
    · intro h
      by_cases hc : bagOfList l = bagOfList r
      · exact (bagOfList_eq_iff_counts l r).mp hc
      · simp [assure_bag_eq, hc] at h
    · intro h
      have hc := (bagOfList_eq_iff_counts l r).mpr h
      simp [assure_bag_eq, hc]

/-- Witness for C10 at a concrete input. -/
theorem assure_bag_eq_protocol_witness :
    assure_bag_eq_with_message [1, 2] [2, 1] "message" = assure_bag_eq [1, 2] [2, 1] :=
  (assure_bag_eq_protocol [1, 2] [2, 1]).2.2 "message"

end Assertables
